import Mathlib

/-!
# Verification of the linebot-adk session/dispatch/retry orchestration layer

Shallow embedding of the repository's core logic:

* `src/main.py` — `get_or_create_session`, `call_agent_async` (routing,
  response extraction from the agent's event stream, and the one-shot retry
  on a "Session not found" failure);
* `src/multi_tool_agent/stock_agent.py` — `calculate_performance`,
  `get_price_change_percent`, `get_best_performing`;
* `src/multi_tool_agent/arxiv_agent.py` — `answer_paper_question`.

External collaborators (the ADK runner's event stream, the session-creation
service, the yfinance history fetch, the arXiv search backend) are modelled
as explicit function parameters, so that theorems quantify over every
behaviour those collaborators may exhibit.  Exceptions are modelled with
`Except`: a `.error` result of the dispatch embedding is an exception that
propagates out of `call_agent_async` to its caller.
-/

set_option autoImplicit false

namespace LinebotADK

/-- Python's `needle in hay` prefix test on character lists:
`startsList n h` is true iff `n` is a prefix of `h`. -/
def startsList : List Char → List Char → Bool
  | [], _ => true
  | _ :: _, [] => false
  | a :: as, b :: bs => a == b && startsList as bs

/-- Substring occurrence on character lists (any position). -/
def containsList : List Char → List Char → Bool
  | needle, [] => startsList needle []
  | needle, h :: t => startsList needle (h :: t) || containsList needle t

/-- Python's substring test `needle in hay` on strings. -/
def containsSub (hay needle : String) : Bool :=
  containsList needle.data hay.data

/-- Python's `str.lower()` (ASCII range; characters outside it, such as the
CJK routing keywords, are unaffected in both languages).  Defined
structurally over the character list so that it evaluates by kernel
reduction. -/
def lowerStr (s : String) : String :=
  String.mk (s.data.map Char.toLower)

/-! ## Event model (`google.adk` events as consumed by `call_agent_async`)

`main.py` lines 219-233 read, from each event: `event.is_final_response()`,
`event.content` (possibly `None`), `event.content.parts` (a list whose
elements may or may not carry a `text` attribute; a part without the
attribute is skipped by the `hasattr` filter), and
`event.actions.escalate.message`.  A part is therefore an `Option String`
(`none` = no `text` attribute). -/

/-- `event.actions.escalate`: the escalation payload with its message
(`event.actions.escalate.message`, main.py line 231). -/
structure Escalation where
  message : String
deriving DecidableEq, Repr

/-- `event.actions` (may be `None` in Python, hence wrapped in `Option`
at the use site). -/
structure EventActions where
  escalate : Option Escalation
deriving DecidableEq, Repr

/-- `event.content`: carries the list of parts. -/
structure EventContent where
  parts : List (Option String)
deriving DecidableEq, Repr

/-- One execution event produced by `runner.run_async`. -/
structure Event where
  is_final : Bool
  content : Option EventContent
  actions : Option EventActions
deriving DecidableEq, Repr

/-- `"".join(part.text for part in parts if hasattr(part, "text"))`
(main.py lines 224-228). -/
def joinTexts (parts : List (Option String)) : String :=
  String.join (parts.filterMap id)

/-- The `elif event.actions and event.actions.escalate` branch
(main.py lines 229-232): the formatted escalation text, or `none` when the
event carries no escalation. -/
def escalationUpdate (e : Event) : Option String :=
  match e.actions with
  | some a =>
    match a.escalate with
    | some esc => some ("Escalation from agent: " ++ esc.message)
    | none => none
  | none => none

/-- What a terminal event does to `final_response_text`
(main.py lines 222-232): `some t` sets the text to `t`, `none` leaves it
unchanged (a final event with neither parts nor escalation).  The Python
truthiness of `event.content` (`None` is falsy) and of
`event.content.parts` (the empty list is falsy) is modelled exactly. -/
def extractUpdate (e : Event) : Option String :=
  match e.content with
  | some c => if c.parts.isEmpty then escalationUpdate e else some (joinTexts c.parts)
  | none => escalationUpdate e

/-- One item observed while iterating `runner.run_async(...)`: either a
yielded event, or an exception raised by the stream — `raiseVE` is a
`ValueError`, `raiseOther` any other exception class. -/
inductive StreamItem where
  | ev (e : Event)
  | raiseVE (msg : String)
  | raiseOther (msg : String)
deriving DecidableEq, Repr

/-- Result of the `async for` loop of main.py lines 219-233:
`done upd` — the loop completed (break at the first final event, or stream
exhausted), where `upd` is the update to `final_response_text`;
`ve msg` / `oe msg` — the iteration raised. -/
inductive ConsumeResult where
  | done (update : Option String)
  | ve (msg : String)
  | oe (msg : String)
deriving DecidableEq, Repr

/-- Consume the event stream exactly as the `async for` loop does: stop at
the first `is_final_response()` event (subsequent items are never pulled),
propagate a raised exception, return `done none` on exhaustion. -/
def consume : List StreamItem → ConsumeResult
  | [] => .done none
  | .raiseVE m :: _ => .ve m
  | .raiseOther m :: _ => .oe m
  | .ev e :: rest => if e.is_final then .done (extractUpdate e) else consume rest

/-! ## Session registry (`active_sessions` + `get_or_create_session`) -/

/-- The process-wide mutable state touched by `get_or_create_session` and
the retry handler: `active` is the `active_sessions` dict (an association
list, keys unique), and `created` counts the calls made so far to
`session_service.create_session` — instrumentation used both to index the
session-service behaviour oracle and to state "exactly one session
creation". -/
structure DispState where
  active : List (String × String)
  created : Nat
deriving DecidableEq, Repr

/-- `main.py` lines 135-153.  `svc` is the behaviour of
`session_service.create_session`: `svc k = some m` means the `k`-th
creation call raises an exception with message `m` (the registry is then
left unmodified, since `active_sessions[user_id] = session_id` runs after
the call); `svc k = none` means it succeeds.  The session id is minted
deterministically as `f"session_{user_id}"` (line 138). -/
def get_or_create_session (svc : Nat → Option String) (user_id : String)
    (st : DispState) : Except String (String × DispState) :=
  match st.active.lookup user_id with
  | some session_id => .ok (session_id, st)
  | none =>
    let session_id := "session_" ++ user_id
    match svc st.created with
    | some m => .error m
    | none => .ok (session_id, ⟨(user_id, session_id) :: st.active, st.created + 1⟩)

/-- `del active_sessions[user_id]` (main.py lines 240-241). -/
def eraseUser (user_id : String) (st : DispState) : DispState :=
  ⟨st.active.filter (fun p => p.1 != user_id), st.created⟩

/-! ## Dispatch (`call_agent_async`) -/

/-- `max_retries = 1` (main.py line 215). -/
def max_retries : Nat := 1

/-- Initial `final_response_text` (main.py line 194). -/
def defaultText : String := "Agent did not produce a final response."

/-- The session-invalid marker matched by `"Session not found" in str(e)`
(main.py line 236). -/
def sessionMarker : String := "Session not found"

/-- The routing keyword table (main.py lines 197-207). -/
def stock_keywords : List String :=
  ["stock", "price of", "perform", "ticker", "symbol", "shares", "market",
   "漲跌", "股價"]

/-- `any(keyword in query.lower() for keyword in stock_keywords)`
(main.py line 208): `true` routes to the stock runner, `false` to the root
runner. -/
def routeToStock (query : String) : Bool :=
  stock_keywords.any (fun k => containsSub (lowerStr query) k)

/-- Behaviour of one `runner.run_async` invocation, as a function of the
chosen runner (`stock`), the retry-attempt index, the session id, and the
forwarded message text: the stream of items the iteration observes. -/
def Behavior : Type :=
  Bool → Nat → String → String → List StreamItem

/-- One record per `runner.run_async` invocation: which runner was chosen,
the `session_id` argument, and the text of the `new_message` content. -/
structure ExecRec where
  stock : Bool
  session_id : String
  message : String
deriving DecidableEq, Repr

/-- The retry loop `for attempt in range(max_retries + 1)` of main.py
lines 217-250, one list element per remaining attempt index.  Returns the
dispatch result (`Except.error` = an exception propagating out of
`call_agent_async`, possible only when `session_service.create_session`
raises inside the `except ValueError` handler, which is not itself inside
a `try`), the final registry state, and the trace of `run_async`
invocations made. -/
def attemptLoop (behavior : Behavior) (svc : Nat → Option String)
    (user_id : String) (stock : Bool) (msg : String) :
    List Nat → String → String → DispState →
      Except String String × DispState × List ExecRec
  | [], _, text, st => (.ok text, st, [])
  | attempt :: rest, session_id, text, st =>
    let rc : ExecRec := ⟨stock, session_id, msg⟩
    match consume (behavior stock attempt session_id msg) with
    | .done upd => (.ok (upd.getD text), st, [rc])
    | .ve m =>
      if containsSub m sessionMarker && decide (attempt < max_retries) then
        let st1 := eraseUser user_id st
        match get_or_create_session svc user_id st1 with
        | .error em => (.error em, st1, [rc])
        | .ok (sid2, st2) =>
          match attemptLoop behavior svc user_id stock msg rest sid2 text st2 with
          | (r, s, tr) => (r, s, rc :: tr)
      else (.ok ("Sorry, an error occurred: " ++ m), st, [rc])
    | .oe m => (.ok ("Sorry, an unexpected error occurred: " ++ m), st, [rc])

/-- `call_agent_async` (main.py lines 190-253).  The initial
`get_or_create_session` call on line 214 sits outside the `try` block, so
an exception it raises propagates (`Except.error`) with no agent execution
performed. -/
def call_agent_async (behavior : Behavior) (svc : Nat → Option String)
    (query user_id : String) (st : DispState) :
    Except String String × DispState × List ExecRec :=
  let stock := routeToStock query
  match get_or_create_session svc user_id st with
  | .error em => (.error em, st, [])
  | .ok (session_id, st1) =>
    attemptLoop behavior svc user_id stock query (List.range (max_retries + 1))
      session_id defaultText st1

/-! ## Stock agent (`src/multi_tool_agent/stock_agent.py`)

The yfinance call `ticker.history(start=..., end=...)` is modelled by a
`fetch` oracle returning either the window's list of daily closes
(`"Close"` column, in date order) or an exception; `calculate_performance`
wraps its whole body in `try/except → None`. -/

/-- Outcome of `ticker.history(...)` for one `(symbol, days_ago)` request:
the list of daily closes, or an exception raised anywhere inside the
`try` block. -/
inductive FetchResult where
  | ok (closes : List ℚ)
  | exn
deriving DecidableEq

/-- Python's `round(x, 2)`: round to 2 decimal places, ties to even
(banker's rounding). -/
def round2 (x : ℚ) : ℚ :=
  let y := x * 100
  let f := ⌊y⌋
  let frac := y - (f : ℚ)
  if frac < 1 / 2 then (f : ℚ) / 100
  else if 1 / 2 < frac then ((f : ℚ) + 1) / 100
  else if f % 2 = 0 then (f : ℚ) / 100 else ((f : ℚ) + 1) / 100

/-- The price-change arithmetic of stock_agent.py lines 44-50:
`iloc[0]` / `iloc[-1]`, the zero-baseline guard, and `round(..., 2)`.
`iloc` on an empty column raises, which the enclosing `try` turns into
`None` — hence the `none` fallthrough. -/
def perfCore (closes : List ℚ) : Option ℚ :=
  match closes.head?, closes.getLast? with
  | some old_price, some new_price =>
    if old_price = 0 then some 0
    else some (round2 ((new_price - old_price) / old_price * 100))
  | _, _ => none

/-- `calculate_performance` (stock_agent.py lines 5-53).  The guard block
is entered only when `historical_data.empty or len(...) < 1`, i.e. only
when the close list is empty; its inner `len(...) < 2 and days_ago > 0`
check is reproduced as written (it can fire only for an empty history,
never for a single-close history). -/
def calculate_performance (fetch : String → Int → FetchResult)
    (symbol : String) (days_ago : Int) : Option ℚ :=
  match fetch symbol days_ago with
  | .exn => none
  | .ok closes =>
    if closes.isEmpty || decide (closes.length < 1) then
      if decide (closes.length < 2) && decide (days_ago > 0) then none
      else if closes.isEmpty then none
      else perfCore closes
    else perfCore closes

/-- Result dict of `get_price_change_percent`: keys
`status`/`symbol`/`price_change_percent`/`period_days` on success, or
`status`/`message` on error. -/
inductive PriceChangeResult where
  | success (symbol : String) (price_change_percent : ℚ) (period_days : Int)
  | error (message : String)
deriving DecidableEq

/-- `get_price_change_percent` (stock_agent.py lines 163-187).  `days_ago`
is an `Int`, so the `isinstance(days_ago, int)` half of the validation is
always satisfied. -/
def get_price_change_percent (fetch : String → Int → FetchResult)
    (symbol : String) (days_ago : Int) : PriceChangeResult :=
  if days_ago ≤ 0 then .error "Days ago must be a positive integer."
  else
    match calculate_performance fetch symbol days_ago with
    | some performance => .success symbol performance days_ago
    | none =>
      .error ("Could not calculate price change for " ++ symbol ++ " over "
        ++ toString days_ago
        ++ " days. Ensure symbol is valid and data is available for the period.")

/-- Result dict of `get_best_performing`. -/
inductive BestResult where
  | success (best_stock : String) (performance_percent : ℚ) (period_days : Int)
  | error (message : String)
deriving DecidableEq

/-- `performance > max_performance` where `max_performance` starts at
`-float("inf")` — modelled as `none`, which every rational exceeds. -/
def beatsMax (p : ℚ) : Option ℚ → Bool
  | none => true
  | some m => decide (m < p)

/-- The `for symbol in stocks` accumulation loop of stock_agent.py
lines 73-82: threads `best_stock_symbol` and `max_performance`.  A strict
`>` comparison means ties keep the first-seen symbol. -/
def bestLoop (fetch : String → Int → FetchResult) (days_ago : Int) :
    List String → Option String → Option ℚ → Option String × Option ℚ
  | [], best, mx => (best, mx)
  | s :: rest, best, mx =>
    match calculate_performance fetch s days_ago with
    | some p =>
      if beatsMax p mx then bestLoop fetch days_ago rest (some s) (some p)
      else bestLoop fetch days_ago rest best mx
    | none => bestLoop fetch days_ago rest best mx

/-- Python's `str(list_of_str)` rendering used by the f-string in the
lookup-error message: `['AAPL', 'MSFT']`. -/
def pyListRepr (xs : List String) : String :=
  let q := String.singleton (Char.ofNat 39)
  "[" ++ String.intercalate ", " (xs.map (fun s => q ++ s ++ q)) ++ "]"

/-- The all-lookups-failed error message of stock_agent.py lines 92-95,
embedding the full input list. -/
def bestErrMsg (stocks : List String) (days_ago : Int) : String :=
  "Could not determine the best performing stock from the list: "
    ++ pyListRepr stocks ++ " over " ++ toString days_ago
    ++ " days. Ensure symbols are valid and data is available for the period."

/-- `get_best_performing` (stock_agent.py lines 56-95).  The final
`if best_stock_symbol:` test is Python truthiness: both `None` and the
empty-string symbol fall to the error branch. -/
def get_best_performing (fetch : String → Int → FetchResult)
    (stocks : List String) (days_ago : Int) : BestResult :=
  if stocks.isEmpty then .error "Stock list cannot be empty."
  else if days_ago ≤ 0 then .error "Days ago must be a positive integer."
  else
    match bestLoop fetch days_ago stocks none none with
    | (some best_stock_symbol, some max_performance) =>
      if best_stock_symbol = "" then .error (bestErrMsg stocks days_ago)
      else .success best_stock_symbol max_performance days_ago
    | _ => .error (bestErrMsg stocks days_ago)

/-! ## arXiv question answering (`src/multi_tool_agent/arxiv_agent.py`)

`answer_paper_question` is embedded with two oracles:
`extractId` for `_extract_arxiv_id` (an in-repo regex search whose exact
language of accepted identifier shapes is irrelevant to the claims proved
here — only the `some`/`none` split matters), and `search` for
`next(arxiv.Search(id_list=[...]).results(), None)` together with any
exception the network call raises. -/

/-- The fields of an arXiv result used by `answer_paper_question`. -/
structure Paper where
  title : String
  summary : String
deriving DecidableEq

/-- Outcome of the arXiv lookup for an extracted id. -/
inductive PaperFetch where
  | found (p : Paper)
  | notFound
  | exn (msg : String)
deriving DecidableEq

/-- Result dict of `answer_paper_question`: on success it always carries
`answer_type`, `message`, `abstract` and `title`. -/
inductive QAResult where
  | success (answer_type message abstract title : String)
  | error (message : String)
deriving DecidableEq

/-- The `STOP_WORDS` set of arxiv_agent.py lines 5-19. -/
def STOP_WORDS : List String :=
  ["a", "an", "the", "is", "are", "was", "were", "be", "been", "being",
   "have", "has", "had", "do", "does", "did", "will", "would", "should",
   "can", "could", "may", "might", "must", "and", "but", "or", "nor",
   "for", "so", "yet", "in", "on", "at", "by", "from", "to", "with",
   "about", "above", "after", "again", "against", "all", "am", "as",
   "because", "before", "below", "between", "both", "during", "each",
   "few", "further", "here", "how", "i", "if", "into", "it", "its", "itself",
   "just", "me", "more", "most", "my", "myself", "no", "not", "now", "of",
   "off", "once", "only", "other", "our", "ours", "ourselves", "out", "over",
   "own", "same", "she", "he", "they", "them", "their", "theirs", "themselves",
   "then", "there", "these", "this", "those", "through", "too", "under",
   "until", "up", "very", "we", "what", "when", "where", "which", "while",
   "who", "whom", "why", "you", "your", "yours", "yourself", "yourselves"]

/-- A regex `\w` word character (ASCII alphanumeric or underscore). -/
def isWordChar (c : Char) : Bool :=
  c.isAlphanum || c == '_'

/-- Accumulator-style tokenizer: maximal runs of word characters. -/
def wordTokensAux : List Char → List Char → List String
  | [], cur => if cur.isEmpty then [] else [String.mk cur.reverse]
  | c :: rest, cur =>
    if isWordChar c then wordTokensAux rest (c :: cur)
    else if cur.isEmpty then wordTokensAux rest []
    else String.mk cur.reverse :: wordTokensAux rest []

/-- `re.split(r"\W+", s)` minus the empty boundary fragments — the empty
fragments are exactly what the `if word` filter of arxiv_agent.py line 137
discards, so the surviving tokens are the maximal word-character runs. -/
def wordTokens (s : String) : List String :=
  wordTokensAux s.data []

/-- `answer_paper_question` (arxiv_agent.py lines 111-176).  The keyword
count compares `found_keywords > len(question_words) / 2` with exact
(float) division, i.e. `2 * found > len`. -/
def answer_paper_question (extractId : String → Option String)
    (search : String → PaperFetch) (id_or_url question : String) : QAResult :=
  let q := String.singleton (Char.ofNat 39)
  match extractId id_or_url with
  | none => .error "Invalid arXiv ID or URL format."
  | some arxiv_id =>
    match search arxiv_id with
    | .exn m => .error ("An error occurred: " ++ m)
    | .notFound => .error ("Paper with ID " ++ q ++ arxiv_id ++ q ++ " not found.")
    | .found paper =>
      let question_words :=
        (wordTokens (lowerStr question)).filter (fun w => !STOP_WORDS.contains w)
      if question_words.isEmpty then
        .success "not_enough_keywords"
          "Your question did not contain enough significant keywords after removing common words. Please try a more specific question."
          paper.summary paper.title
      else
        let abstract_lower := lowerStr paper.summary
        let found_keywords :=
          (question_words.filter (fun w => containsSub abstract_lower w)).length
        if question_words.length < 2 * found_keywords then
          .success "found_in_abstract"
            "The abstract may contain information relevant to your question. Please review it."
            paper.summary paper.title
        else
          .success "not_found_in_abstract"
            ("I could not find specific information for your question in the paper"
              ++ q ++ "s abstract.")
            paper.summary paper.title

/-! ## Helper lemmas -/

/-- Each iteration of the retry loop contributes exactly one `run_async`
invocation record, so the trace is bounded by the attempt list. -/
theorem attemptLoop_length_le (behavior : Behavior) (svc : Nat → Option String)
    (user_id : String) (stock : Bool) (msg : String) :
    ∀ (attempts : List Nat) (sid text : String) (st : DispState),
      (attemptLoop behavior svc user_id stock msg attempts sid text st).2.2.length
        ≤ attempts.length := by
  intro attempts
  induction attempts with
  | nil => intro sid text st; simp [attemptLoop]
  | cons a rest ih =>
    intro sid text st
    simp only [attemptLoop]
    cases hc : consume (behavior stock a sid msg) with
    | done upd => simp
    | oe m => simp
    | ve m =>
      simp only []
      split
      · cases hg : get_or_create_session svc user_id (eraseUser user_id st) with
        | error em => simp
        | ok p =>
          obtain ⟨sid2, st2⟩ := p
          have := ih sid2 text st2
          simp only [List.length_cons]
          cases hrec : attemptLoop behavior svc user_id stock msg rest sid2 text st2 with
          | mk r q =>
            obtain ⟨s, tr⟩ := q
            simp only [List.length_cons, Nat.add_le_add_iff_right]
            have h2 := ih sid2 text st2
            rw [hrec] at h2
            simpa using h2
      · simp

/-- Every record in the trace carries the constant forwarded message and
the constant routing decision of the enclosing dispatch. -/
theorem attemptLoop_records (behavior : Behavior) (svc : Nat → Option String)
    (user_id : String) (stock : Bool) (msg : String) :
    ∀ (attempts : List Nat) (sid text : String) (st : DispState),
      ∀ r ∈ (attemptLoop behavior svc user_id stock msg attempts sid text st).2.2,
        r.message = msg ∧ r.stock = stock := by
  intro attempts
  induction attempts with
  | nil => intro sid text st r hr; simp [attemptLoop] at hr
  | cons a rest ih =>
    intro sid text st r hr
    simp only [attemptLoop] at hr
    cases hc : consume (behavior stock a sid msg) with
    | done upd =>
      rw [hc] at hr; simp at hr; subst hr; exact ⟨rfl, rfl⟩
    | oe m =>
      rw [hc] at hr; simp at hr; subst hr; exact ⟨rfl, rfl⟩
    | ve m =>
      rw [hc] at hr
      simp only [] at hr
      by_cases hb : (containsSub m sessionMarker && decide (a < max_retries)) = true
      · rw [if_pos hb] at hr
        cases hg : get_or_create_session svc user_id (eraseUser user_id st) with
        | error em =>
          rw [hg] at hr; simp at hr; subst hr; exact ⟨rfl, rfl⟩
        | ok p =>
          obtain ⟨sid2, st2⟩ := p
          rw [hg] at hr
          simp only [List.mem_cons] at hr
          rcases hr with hr | hr
          · subst hr; exact ⟨rfl, rfl⟩
          · exact ih sid2 text st2 r hr
      · rw [if_neg hb] at hr; simp at hr; subst hr; exact ⟨rfl, rfl⟩

/-- When the session service never raises, `get_or_create_session` always
succeeds. -/
theorem get_or_create_session_ok (user_id : String) (st : DispState) :
    ∃ sid st1, get_or_create_session (fun _ => none) user_id st = .ok (sid, st1) := by
  unfold get_or_create_session
  cases st.active.lookup user_id with
  | some s => exact ⟨s, st, rfl⟩
  | none => exact ⟨_, _, rfl⟩

/-- When the session service never raises, the retry loop always returns a
text (never propagates an exception). -/
theorem attemptLoop_ok (behavior : Behavior) (user_id : String) (stock : Bool)
    (msg : String) :
    ∀ (attempts : List Nat) (sid text : String) (st : DispState),
      ∃ t, (attemptLoop behavior (fun _ => none) user_id stock msg attempts
              sid text st).1 = .ok t := by
  intro attempts
  induction attempts with
  | nil => intro sid text st; exact ⟨text, rfl⟩
  | cons a rest ih =>
    intro sid text st
    simp only [attemptLoop]
    cases hc : consume (behavior stock a sid msg) with
    | done upd => exact ⟨upd.getD text, rfl⟩
    | oe m => exact ⟨_, rfl⟩
    | ve m =>
      simp only []
      split
      · obtain ⟨sid2, st2, hg⟩ :=
          get_or_create_session_ok user_id (eraseUser user_id st)
        rw [hg]
        obtain ⟨t, ht⟩ := ih sid2 text st2
        exact ⟨t, ht⟩
      · exact ⟨_, rfl⟩

/-- Case analysis of the two-attempt loop: at most two executions, and a
second execution happens only when the first raised a `ValueError` whose
message contains the session-invalid marker. -/
theorem attemptLoop_two_bound (behavior : Behavior) (svc : Nat → Option String)
    (user_id : String) (stock : Bool) (msg sid text : String) (st : DispState) :
    (attemptLoop behavior svc user_id stock msg [0, 1] sid text st).2.2.length ≤ 2 ∧
      ((attemptLoop behavior svc user_id stock msg [0, 1] sid text st).2.2.length = 2 →
        ∃ r1 r2 m,
          (attemptLoop behavior svc user_id stock msg [0, 1] sid text st).2.2 = [r1, r2] ∧
          consume (behavior r1.stock 0 r1.session_id r1.message) = ConsumeResult.ve m ∧
          containsSub m sessionMarker = true) := by
  simp only [attemptLoop]
  cases hc : consume (behavior stock 0 sid msg) with
  | done upd => simp
  | oe m => simp
  | ve m =>
    simp only []
    by_cases hb : (containsSub m sessionMarker && decide (0 < max_retries)) = true
    · rw [if_pos hb]
      have hmark : containsSub m sessionMarker = true := by
        have hb2 := hb
        rw [Bool.and_eq_true] at hb2
        exact hb2.1
      cases hg : get_or_create_session svc user_id (eraseUser user_id st) with
      | error em => simp
      | ok p =>
        obtain ⟨sid2, st2⟩ := p
        cases hc2 : consume (behavior stock 1 sid2 msg) with
        | done upd2 =>
          simp only [attemptLoop, hc2]
          exact ⟨by simp, fun _ => ⟨⟨stock, sid, msg⟩, ⟨stock, sid2, msg⟩, m,
            by simp, hc, hmark⟩⟩
        | oe m2 =>
          simp only [attemptLoop, hc2]
          exact ⟨by simp, fun _ => ⟨⟨stock, sid, msg⟩, ⟨stock, sid2, msg⟩, m,
            by simp, hc, hmark⟩⟩
        | ve m2 =>
          simp only [attemptLoop, hc2]
          have : (containsSub m2 sessionMarker && decide (1 < max_retries)) = false := by
            simp [max_retries]
          rw [this]
          simp only [Bool.false_eq_true, if_false]
          exact ⟨by simp, fun _ => ⟨⟨stock, sid, msg⟩, ⟨stock, sid2, msg⟩, m,
            by simp, hc, hmark⟩⟩
    · rw [if_neg hb]
      simp

/-! ## Claim C1 -/

/-- C1: per dispatch call, `runner.run_async` is invoked at most twice;
it is invoked exactly twice only if the first invocation raised a
`ValueError` whose message contains the session-invalid marker
`"Session not found"`; no third invocation is reachable regardless of how
the second invocation fails. -/
theorem c1_dispatch_at_most_two_executions (behavior : Behavior)
    (svc : Nat → Option String) (query user_id : String) (st : DispState) :
    (call_agent_async behavior svc query user_id st).2.2.length ≤ 2 ∧
      ((call_agent_async behavior svc query user_id st).2.2.length = 2 →
        ∃ r1 r2 m,
          (call_agent_async behavior svc query user_id st).2.2 = [r1, r2] ∧
          consume (behavior r1.stock 0 r1.session_id r1.message) = ConsumeResult.ve m ∧
          containsSub m sessionMarker = true) := by
  unfold call_agent_async
  cases hg : get_or_create_session svc user_id st with
  | error em => simp
  | ok p =>
    obtain ⟨sid, st1⟩ := p
    have hr : List.range (max_retries + 1) = [0, 1] := rfl
    rw [hr]
    exact attemptLoop_two_bound behavior svc user_id (routeToStock query) query sid
      defaultText st1

/-- Closed instantiation of C1 at a concrete dispatch. -/
theorem c1_dispatch_at_most_two_executions_witness :
    (call_agent_async (fun _ _ _ _ => []) (fun _ => none) "hello" "user1"
        ⟨[], 0⟩).2.2.length ≤ 2 :=
  (c1_dispatch_at_most_two_executions (fun _ _ _ _ => []) (fun _ => none) "hello"
    "user1" ⟨[], 0⟩).1

/-! ## Claim C2 -/

/-- Backend behaviour of spec Scenario B: the first execution raises the
session-invalid `ValueError`, the retry yields a terminal text event
`"Retry successful"`. -/
def retryBehavior : Behavior := fun _ attempt _ _ =>
  if attempt = 0 then [StreamItem.raiseVE "Session not found: session_user1"]
  else [StreamItem.ev ⟨true, some ⟨[some "Retry successful"]⟩, none⟩]

/-- C2 (evaluation at the failing input): the dispatch does return exactly
`"Retry successful"` after exactly two executions, but the session
identity of the second execution EQUALS that of the first —
`get_or_create_session` mints ids deterministically as
`"session_" ++ user_id`, so the invalidated identity is reused, contrary
to the claim's distinctness requirement. -/
theorem c2_retry_reuses_session_identity :
    (call_agent_async retryBehavior (fun _ => none) "hello" "user1" ⟨[], 0⟩).1 =
        Except.ok "Retry successful" ∧
      (call_agent_async retryBehavior (fun _ => none) "hello" "user1"
          ⟨[], 0⟩).2.2.map ExecRec.session_id =
        ["session_user1", "session_user1"] :=
  ⟨rfl, rfl⟩

/-! ## Claim C3 -/

/-- Backend behaviour of spec Scenario D: the terminal event carries an
escalation payload with message `"Escalation message here"` and no
textual content. -/
def escalationBehavior : Behavior := fun _ _ _ _ =>
  [StreamItem.ev ⟨true, none, some ⟨some ⟨"Escalation message here"⟩⟩⟩]

/-- C3 (evaluation at the failing input): the dispatch returns
`"Escalation from agent: Escalation message here"` (main.py line 231),
which differs from the `"Agent escalated: Escalation message here"`
required by the claim and asserted by the repository's own test
`test_escalation_event_initial_call`. -/
theorem c3_escalation_text_mismatch :
    (call_agent_async escalationBehavior (fun _ => none) "hello" "user1"
        ⟨[], 0⟩).1 =
        Except.ok "Escalation from agent: Escalation message here" ∧
      "Escalation from agent: Escalation message here" ≠
        "Agent escalated: Escalation message here" :=
  ⟨rfl, by decide⟩

/-! ## Claim C4 -/

/-- C4: for any event sequence whose first terminal event carries content
with at least one part, the extraction loop returns the concatenation of
the textual parts of that first terminal event, and the items after it
(`rest` — which may even contain raising items) are never consumed and
cannot affect the result. -/
theorem c4_extraction_first_terminal (pre : List Event) (e : Event)
    (c : EventContent) (rest : List StreamItem)
    (hf : e.is_final = true) (hc : e.content = some c) (hps : c.parts ≠ [])
    (hpre : ∀ p ∈ pre, p.is_final = false) :
    consume (pre.map StreamItem.ev ++ StreamItem.ev e :: rest) =
      ConsumeResult.done (some (joinTexts c.parts)) := by
  induction pre with
  | nil =>
    have hpe : c.parts.isEmpty = false := by
      cases hcp : c.parts with
      | nil => exact absurd hcp hps
      | cons x xs => rfl
    simp [consume, hf, extractUpdate, hc, hpe]
  | cons p ps ih =>
    have hp : p.is_final = false := hpre p (List.mem_cons_self p ps)
    simp only [List.map_cons, List.cons_append, consume, hp, Bool.false_eq_true,
      if_false]
    exact ih (fun q hq => hpre q (List.mem_cons_of_mem p hq))

/-- Closed instantiation of C4: a non-terminal event, then a terminal event
with parts `["Hello, ", ⊥, "world"]`, then an item that would raise if it
were ever consumed. -/
theorem c4_extraction_first_terminal_witness :
    consume ([Event.mk false none none].map StreamItem.ev ++
        StreamItem.ev ⟨true, some ⟨[some "Hello, ", none, some "world"]⟩, none⟩ ::
        [StreamItem.raiseOther "never consumed"]) =
      ConsumeResult.done (some "Hello, world") :=
  c4_extraction_first_terminal [⟨false, none, none⟩]
    ⟨true, some ⟨[some "Hello, ", none, some "world"]⟩, none⟩
    ⟨[some "Hello, ", none, some "world"]⟩ [StreamItem.raiseOther "never consumed"]
    rfl rfl (by decide) (by decide)

/-! ## Claim C5 -/

/-- C5: for a user with no registry entry (and a session service that does
not raise), `get_or_create_session` performs exactly one creation, adds
exactly one entry for that user, and returns its identity; a second call
with no intervening invalidation performs no further creation and returns
the same identity with the registry unchanged. -/
theorem c5_resolve_or_create_once (svc : Nat → Option String) (user_id : String)
    (st : DispState) (habs : st.active.lookup user_id = none)
    (hsvc : svc st.created = none) :
    ∃ session_id st1,
      get_or_create_session svc user_id st = .ok (session_id, st1) ∧
      st1.active = (user_id, session_id) :: st.active ∧
      st1.created = st.created + 1 ∧
      get_or_create_session svc user_id st1 = .ok (session_id, st1) := by
  refine ⟨"session_" ++ user_id,
    ⟨(user_id, "session_" ++ user_id) :: st.active, st.created + 1⟩, ?_, rfl, rfl, ?_⟩
  · simp [get_or_create_session, habs, hsvc]
  · simp [get_or_create_session, List.lookup]

/-- Closed instantiation of C5 on the empty registry. -/
theorem c5_resolve_or_create_once_witness :
    ∃ session_id st1,
      get_or_create_session (fun _ => none) "user1" ⟨[], 0⟩ = .ok (session_id, st1) ∧
      st1.active = [("user1", session_id)] ∧
      st1.created = 1 ∧
      get_or_create_session (fun _ => none) "user1" st1 = .ok (session_id, st1) :=
  c5_resolve_or_create_once (fun _ => none) "user1" ⟨[], 0⟩ rfl rfl

/-! ## Claim C6 -/

/-- C6 (counterexample): `get_or_create_session` is called outside the
`try` block (main.py line 214), so when `session_service.create_session`
raises, the exception propagates out of `call_agent_async` instead of
being converted to a text — refuting "never propagates an exception ...
including a failure while resolving or creating the session". -/
theorem c6_counterexample_session_service_raises :
    (call_agent_async escalationBehavior (fun _ => some "session service failure")
        "hello" "user1" ⟨[], 0⟩).1 = Except.error "session service failure" :=
  rfl

/-- C6 (amended): provided the session-creation service itself does not
raise, the dispatch returns a text for every behaviour of the agent
backend — any event stream, any `ValueError`, any other exception, at
either attempt — and propagates no exception. -/
theorem c6_amended_always_text (behavior : Behavior) (query user_id : String)
    (st : DispState) :
    ∃ t, (call_agent_async behavior (fun _ => none) query user_id st).1 =
      Except.ok t := by
  unfold call_agent_async
  obtain ⟨sid, st1, hg⟩ := get_or_create_session_ok user_id st
  rw [hg]
  exact attemptLoop_ok behavior user_id (routeToStock query) query
    (List.range (max_retries + 1)) sid defaultText st1

/-! ## Claim C7 -/

/-- A backend yielding one terminal text event. -/
def plainTextBehavior : Behavior := fun _ _ _ _ =>
  [StreamItem.ev ⟨true, some ⟨[some "ok"]⟩, none⟩]

/-- C7 (counterexample): an utterance that is exactly a paper-link URL for
a numeric identifier is forwarded to the agent verbatim — no rewrite to
`arXiv:<id>` happens anywhere in the dispatch path. -/
theorem c7_counterexample_no_rewrite :
    (call_agent_async plainTextBehavior (fun _ => none)
        "https://arxiv.org/abs/2303.10130" "user1" ⟨[], 0⟩).2.2.map
        ExecRec.message =
        ["https://arxiv.org/abs/2303.10130"] ∧
      "https://arxiv.org/abs/2303.10130" ≠ "arXiv:2303.10130" :=
  ⟨rfl, by decide⟩

/-- C7 (amended): the dispatch applies no content transform at all — every
utterance, matching the paper-link pattern or not, is used verbatim both
for keyword routing and as the message forwarded to each agent
execution. -/
theorem c7_amended_forwarded_verbatim (behavior : Behavior)
    (svc : Nat → Option String) (query user_id : String) (st : DispState) :
    ∀ r ∈ (call_agent_async behavior svc query user_id st).2.2,
      r.message = query ∧ r.stock = routeToStock query := by
  intro r hr
  unfold call_agent_async at hr
  cases hg : get_or_create_session svc user_id st with
  | error em => rw [hg] at hr; simp at hr
  | ok p =>
    obtain ⟨sid, st1⟩ := p
    rw [hg] at hr
    exact attemptLoop_records behavior svc user_id (routeToStock query) query
      (List.range (max_retries + 1)) sid defaultText st1 r hr

/-- Closed instantiation of C7 (amended) at a concrete dispatch. -/
theorem c7_amended_forwarded_verbatim_witness :
    (⟨false, "session_user1", "hello"⟩ : ExecRec).message = "hello" ∧
      (⟨false, "session_user1", "hello"⟩ : ExecRec).stock = routeToStock "hello" :=
  c7_amended_forwarded_verbatim plainTextBehavior (fun _ => none) "hello" "user1"
    ⟨[], 0⟩ ⟨false, "session_user1", "hello"⟩ (by decide)

/-! ## Claim C8 -/

/-- A market-history oracle returning exactly one daily close (100) for
every request. -/
def singleCloseFetch : String → Int → FetchResult := fun _ _ => .ok [100]

/-- C8 (evaluation at the failing input): with exactly one close in the
window and a positive day count, `get_price_change_percent` returns a
SUCCESS result with change 0.0 — not the error the claim (and the
function's own dead `len < 2` guard, nested unreachably under the
`len < 1` check) requires. -/
theorem c8_single_close_returns_success :
    get_price_change_percent singleCloseFetch "AAPL" 5 =
      PriceChangeResult.success "AAPL" 0 5 := by
  have h1 : calculate_performance singleCloseFetch "AAPL" 5 = some 0 := by
    norm_num [calculate_performance, singleCloseFetch, perfCore, round2]
  norm_num [get_price_change_percent, h1]

/-! ## Claim C9 -/

/-- When every symbol's performance lookup fails, the accumulation loop
leaves both the best symbol and the maximum untouched. -/
theorem bestLoop_all_none (fetch : String → Int → FetchResult) (days_ago : Int) :
    ∀ (l : List String) (best : Option String) (mx : Option ℚ),
      (∀ s ∈ l, calculate_performance fetch s days_ago = none) →
      bestLoop fetch days_ago l best mx = (best, mx) := by
  intro l
  induction l with
  | nil => intro best mx _; rfl
  | cons s rest ih =>
    intro best mx hall
    have hs := hall s (List.mem_cons_self s rest)
    simp only [bestLoop, hs]
    exact ih best mx (fun x hx => hall x (List.mem_cons_of_mem s hx))

/-- C9: `get_best_performing` returns the empty-list validation error for
every empty symbol list; a validation error for every non-positive day
count; in both cases the result is independent of the market-data backend
(no lookup is performed); and when every symbol of a non-empty list fails
performance lookup (with valid inputs), it returns the lookup error whose
message embeds the full input list. -/
theorem c9_best_performing_errors (fetch fetch2 : String → Int → FetchResult)
    (stocks : List String) (days_ago : Int) :
    (get_best_performing fetch [] days_ago = .error "Stock list cannot be empty.") ∧
    (days_ago ≤ 0 →
      get_best_performing fetch stocks days_ago =
          .error "Stock list cannot be empty." ∨
        get_best_performing fetch stocks days_ago =
          .error "Days ago must be a positive integer.") ∧
    (stocks = [] ∨ days_ago ≤ 0 →
      get_best_performing fetch stocks days_ago =
        get_best_performing fetch2 stocks days_ago) ∧
    (stocks ≠ [] → 0 < days_ago →
      (∀ s ∈ stocks, calculate_performance fetch s days_ago = none) →
      get_best_performing fetch stocks days_ago =
          .error (bestErrMsg stocks days_ago) ∧
        ∃ a b, bestErrMsg stocks days_ago = a ++ pyListRepr stocks ++ b) := by
  refine ⟨by simp [get_best_performing], ?_, ?_, ?_⟩
  · intro hd
    by_cases hs : stocks.isEmpty
    · exact Or.inl (by simp [get_best_performing, hs])
    · exact Or.inr (by simp [get_best_performing, hs, hd])
  · rintro (hs | hd)
    · subst hs; simp [get_best_performing]
    · by_cases hs : stocks.isEmpty
      · simp [get_best_performing, hs]
      · simp [get_best_performing, hs, hd]
  · intro hne hdpos hall
    have hs : stocks.isEmpty = false := by
      cases hcs : stocks with
      | nil => exact absurd hcs hne
      | cons x xs => rfl
    have hd : ¬days_ago ≤ 0 := by omega
    have hbl := bestLoop_all_none fetch days_ago stocks none none hall
    refine ⟨by simp [get_best_performing, hs, hd, hbl], ?_⟩
    refine ⟨"Could not determine the best performing stock from the list: ",
      " over " ++ toString days_ago ++
        " days. Ensure symbols are valid and data is available for the period.", ?_⟩
    simp [bestErrMsg, String.append_assoc]

/-- Closed instantiation of C9: both validation errors, backend
independence, and the all-lookups-failed error on `["AAPL"]` with an
empty history window. -/
theorem c9_best_performing_errors_witness :
    get_best_performing (fun _ _ => FetchResult.ok []) ["AAPL"] 7 =
      .error (bestErrMsg ["AAPL"] 7) :=
  ((c9_best_performing_errors (fun _ _ => FetchResult.ok [])
      (fun _ _ => FetchResult.exn) ["AAPL"] 7).2.2.2 (by decide) (by decide)
    (by decide)).1

/-! ## Claim C10 -/

/-- C10: whenever the identifier extracts and the paper is fetched,
`answer_paper_question` returns a success result — for each of the three
keyword-analysis outcomes — carrying the paper's abstract and title; and
an error result arises only from a malformed identifier, a missing paper,
or a backend exception. -/
theorem c10_answer_success_and_error_cases (extractId : String → Option String)
    (search : String → PaperFetch) (id_or_url question : String) :
    (∀ a p, extractId id_or_url = some a → search a = PaperFetch.found p →
      ∃ t m, answer_paper_question extractId search id_or_url question =
          QAResult.success t m p.summary p.title ∧
        (t = "found_in_abstract" ∨ t = "not_found_in_abstract" ∨
          t = "not_enough_keywords")) ∧
    (∀ m, answer_paper_question extractId search id_or_url question =
        QAResult.error m →
      extractId id_or_url = none ∨
        ∃ a, extractId id_or_url = some a ∧
          (search a = PaperFetch.notFound ∨ ∃ em, search a = PaperFetch.exn em)) := by
  constructor
  · intro a p ha hp
    simp only [answer_paper_question, ha, hp]
    split
    · exact ⟨_, _, rfl, Or.inr (Or.inr rfl)⟩
    · split
      · exact ⟨_, _, rfl, Or.inl rfl⟩
      · exact ⟨_, _, rfl, Or.inr (Or.inl rfl)⟩
  · intro m hm
    cases he : extractId id_or_url with
    | none => exact Or.inl rfl
    | some a =>
      refine Or.inr ⟨a, rfl, ?_⟩
      cases hs : search a with
      | notFound => exact Or.inl rfl
      | exn em => exact Or.inr ⟨em, rfl⟩
      | found p =>
        exfalso
        simp only [answer_paper_question, he, hs] at hm
        split at hm
        · exact QAResult.noConfusion hm
        · split at hm
          · exact QAResult.noConfusion hm
          · exact QAResult.noConfusion hm

/-- Closed instantiation of C10 at a concrete paper and question. -/
theorem c10_answer_success_and_error_cases_witness :
    ∃ t m, answer_paper_question (fun _ => some "2303.10130")
        (fun _ => PaperFetch.found ⟨"GPTs are GPTs", "Large language models."⟩)
        "2303.10130" "large language models" =
        QAResult.success t m "Large language models." "GPTs are GPTs" ∧
      (t = "found_in_abstract" ∨ t = "not_found_in_abstract" ∨
        t = "not_enough_keywords") :=
  (c10_answer_success_and_error_cases (fun _ => some "2303.10130")
      (fun _ => PaperFetch.found ⟨"GPTs are GPTs", "Large language models."⟩)
      "2303.10130" "large language models").1
    "2303.10130" ⟨"GPTs are GPTs", "Large language models."⟩ rfl rfl

end LinebotADK
